import Mathlib

/-!
Verification of the pulse generator firmware in src/main/pulse.c.

The source file holds two builds of the program separated by a document
marker: an earlier build (modelled inside namespace V1 below) whose
configuration routine cross-checks the pulse duration against the interval
and whose task loop clamps random intervals, and the current build (modelled
at the top of namespace PulseGen) with pause and resume handling, pulse
limits, PPS entry and the end-of-run signal.

Modelling conventions: C int values entered over the serial line are parsed
from digit strings, hence natural numbers; routines that report failure with
a -1 sentinel checked by the caller are modelled with Option, while
ask_pulse_limit, whose -1 sentinel is stored unchecked into the
configuration, keeps an Int result.  The tick clock is a monotone
millisecond counter modelled as Nat; for a monotone clock below the uint32_t
wrap the C subtraction current_time - last_pulse_time agrees with truncated
Nat subtraction.  C integer division only runs here on positive operands,
where it agrees with Nat division; each division site is embedded through a
guarded division with an explicit error branch for a zero divisor.
-/

namespace PulseGen

/-- Interval mode selector, pulse_mode_t in both builds. -/
inductive pulse_mode_t where
  | defined
  | random
deriving DecidableEq

/-- Channel lifecycle state, generator_state_t in the current build. -/
inductive generator_state_t where
  | running
  | paused
  | stopped
deriving DecidableEq

/-- MAX_PPS of the current build. -/
def MAX_PPS : Nat := 1000

/-- MIN_PPS of the current build. -/
def MIN_PPS : Nat := 1

/-- MAX_INTERVAL_MS of the current build. -/
def MAX_INTERVAL_MS : Nat := 3600000

/-- MIN_INTERVAL_MS of the current build, written 1000 / MAX_PPS in the
source, which evaluates to 1. -/
def MIN_INTERVAL_MS : Nat := 1000 / MAX_PPS

/-- MIN_PULSE_MS of the current build. -/
def MIN_PULSE_MS : Nat := 1

/-- MAX_PULSE_MS of the current build. -/
def MAX_PULSE_MS : Nat := 10000

/-- MIN_SAFE_INTERVAL_MS is defined in the current build but never used by
any range check. -/
def MIN_SAFE_INTERVAL_MS : Nat := 2

/-- Guarded integer division: C division with an explicit error branch for a
zero divisor.  Every division of the program is embedded through it. -/
def checkedDiv (a b : Nat) : Option Nat :=
  if b = 0 then none else some (a / b)

/-- Channel configuration of the current build, pulse_config_t.  The state
and pulse_count fields are the shared mutable cells of the struct; the task
loop below reads state as a per-iteration input because handle_pause_system
writes it concurrently. -/
structure pulse_config_t where
  gpio : Nat
  interval_ms : Nat
  pulse_duration_ms : Nat
  mode : pulse_mode_t
  label : String
  max_pulses : Int
  pps : Nat
  state : generator_state_t
  pulse_count : Nat
deriving DecidableEq

/-- Range validation of read_int_from_uart in the current build: the digit
loop accepts only decimal digits, so the parsed value is a natural number; a
value outside the requested bounds makes the C function return -1, modelled
as none. -/
def read_int_from_uart (value min_val max_val : Nat) : Option Nat :=
  if value < min_val ∨ max_val < value then none else some value

/-- ask_pps_config of the current build: with the PPS choice it reads a
count in [MIN_PPS, MAX_PPS] and converts it with interval_ms = 1000 / pps,
otherwise it reads a direct interval in [MIN_INTERVAL_MS, MAX_INTERVAL_MS].
A rejected entry makes the C function return -1, modelled as none. -/
def ask_pps_config (usePps : Bool) (entry : Nat) : Option Nat :=
  if usePps then
    match read_int_from_uart entry MIN_PPS MAX_PPS with
    | none => none
    | some pps =>
      match checkedDiv 1000 pps with
      | none => none
      | some interval_ms => some interval_ms
  else
    read_int_from_uart entry MIN_INTERVAL_MS MAX_INTERVAL_MS

/-- select_mode of the current build: the D key selects the fixed mode and
any other accepted key the random mode. -/
def select_mode (choseD : Bool) : pulse_mode_t :=
  if choseD then pulse_mode_t.defined else pulse_mode_t.random

/-- ask_pulse_limit of the current build: with the limit choice it reads a
count in [1, 1000000] and returns -1 when the entry is rejected; without the
limit choice it returns 0.  configure_output stores this value without
checking for -1. -/
def ask_pulse_limit (withLimit : Bool) (entry : Nat) : Int :=
  if withLimit then
    match read_int_from_uart entry 1 1000000 with
    | none => -1
    | some v => (v : Int)
  else 0

/-- configure_output of the current build: obtains the interval (direct or
via PPS), then the pulse duration, then the mode and the pulse limit, and
fills the configuration including the back-computation
pps = 1000 / interval_ms through the guarded division.  A failed interval or
duration read makes the C function return false, modelled as none.  No
cross-check between the pulse duration and the interval is performed, and a
rejected limit entry is stored as -1. -/
def configure_output (output_num gpio : Nat) (usePps : Bool)
    (intervalEntry durationEntry : Nat) (choseD : Bool) (withLimit : Bool)
    (limitEntry : Nat) : Option pulse_config_t :=
  match ask_pps_config usePps intervalEntry with
  | none => none
  | some interval_ms =>
    match read_int_from_uart durationEntry MIN_PULSE_MS MAX_PULSE_MS with
    | none => none
    | some pulse_duration_ms =>
      match checkedDiv 1000 interval_ms with
      | none => none
      | some pps =>
        some { gpio := gpio, interval_ms := interval_ms,
               pulse_duration_ms := pulse_duration_ms,
               mode := select_mode choseD,
               label := if output_num = 1 then "OUT1" else "OUT2",
               max_pulses := ask_pulse_limit withLimit limitEntry,
               pps := pps,
               state := generator_state_t.stopped, pulse_count := 0 }

namespace V1

/-- MIN_INTERVAL_MS of the earlier build. -/
def MIN_INTERVAL_MS : Nat := 200

/-- MAX_INTERVAL_MS of the earlier build. -/
def MAX_INTERVAL_MS : Nat := 3600000

/-- MIN_PULSE_MS of the earlier build. -/
def MIN_PULSE_MS : Nat := 100

/-- MAX_PULSE_MS of the earlier build. -/
def MAX_PULSE_MS : Nat := 10000

/-- Channel configuration of the earlier build. -/
structure pulse_config_t where
  gpio : Nat
  interval_ms : Nat
  pulse_duration_ms : Nat
  mode : pulse_mode_t
  label : String
deriving DecidableEq

/-- Range validation of read_int_from_uart in the earlier build, identical
to the current build apart from the prompt text. -/
def read_int_from_uart (value min_val max_val : Nat) : Option Nat :=
  if value < min_val ∨ max_val < value then none else some value

/-- configure_single_output of the earlier build: range-check the interval,
then the pulse duration, then reject pulse_duration >= interval; the first
failing check returns NULL, modelled as none, so no configuration is
produced on failure. -/
def configure_single_output (output_number gpio : Nat)
    (intervalEntry durationEntry : Nat) (choseD : Bool) :
    Option pulse_config_t :=
  match read_int_from_uart intervalEntry MIN_INTERVAL_MS MAX_INTERVAL_MS with
  | none => none
  | some interval =>
    match read_int_from_uart durationEntry MIN_PULSE_MS MAX_PULSE_MS with
    | none => none
    | some pulse_duration =>
      if interval ≤ pulse_duration then none
      else
        some { gpio := gpio, interval_ms := interval,
               pulse_duration_ms := pulse_duration,
               mode := if choseD then pulse_mode_t.defined else pulse_mode_t.random,
               label := if output_number = 1 then "Saída 1" else "Saída 2" }

/-- The interval computation at the top of the earlier build task loop: the
random mode draws esp_random() % interval_ms + 1, and any interval not
exceeding the pulse duration is then clamped to pulse_duration + 1.  The
argument r stands for the value returned by the random source. -/
def next_interval (cfg : pulse_config_t) (r : Nat) : Nat :=
  let interval :=
    if cfg.mode = pulse_mode_t.random then r % cfg.interval_ms + 1
    else cfg.interval_ms
  if interval ≤ cfg.pulse_duration_ms then cfg.pulse_duration_ms + 1
  else interval

end V1

/-- The loop-local state owned by pulse_task in the current build:
last_pulse_time (a uint32_t initialised to 0, not to the activation time)
and the pulse counter the task increments. -/
structure SchedState where
  last_pulse_time : Nat
  pulse_count : Nat
deriving DecidableEq

/-- The values the task reads from shared memory during one loop iteration:
system_running at the while guard, the state field at the pause check
(written concurrently by handle_pause_system) and the tick clock sample. -/
structure LoopInput where
  sys : Bool
  phase : generator_state_t
  now : Nat
deriving DecidableEq

/-- One body execution of the pulse_task while loop in the current build: a
paused iteration only sleeps; otherwise the clock is sampled and a pulse is
emitted when current_time - last_pulse_time >= interval_ms, incrementing the
counter and setting last_pulse_time to the sampled time.  The pulse holds
the line low for pulse_duration_ms and returns it high.  The result is the
new state and whether a pulse fired. -/
def loopIter (cfg : pulse_config_t) (s : SchedState) (inp : LoopInput) :
    SchedState × Bool :=
  if inp.phase = generator_state_t.paused then (s, false)
  else if cfg.interval_ms ≤ inp.now - s.last_pulse_time then
    ({ last_pulse_time := inp.now, pulse_count := s.pulse_count + 1 }, true)
  else (s, false)

/-- The pulse_task while loop over a finite observation window: each
LoopInput drives one iteration.  The guard system_running && (max_pulses ==
0 || pulse_count < max_pulses) is re-evaluated before every iteration; when
it fails the loop exits (third component true).  The middle component lists
the clock times of the emitted pulses. -/
def runLoop (cfg : pulse_config_t) :
    SchedState → List LoopInput → SchedState × List Nat × Bool
  | s, [] => (s, [], false)
  | s, inp :: rest =>
    if inp.sys = true ∧
        (cfg.max_pulses = 0 ∨ (s.pulse_count : Int) < cfg.max_pulses) then
      ((runLoop cfg (loopIter cfg s inp).1 rest).1,
       (if (loopIter cfg s inp).2 then [inp.now] else []) ++
         (runLoop cfg (loopIter cfg s inp).1 rest).2.1,
       (runLoop cfg (loopIter cfg s inp).1 rest).2.2)
    else (s, [], true)

/-- One end-of-run toggle: drive the line low, hold 100 ms, drive it high,
hold 100 ms. -/
structure Toggle where
  lowHoldMs : Nat
  highHoldMs : Nat
deriving DecidableEq

/-- The for loop of the end-of-run signal, one Toggle per round. -/
def end_signal_loop : Nat → List Toggle
  | 0 => []
  | n + 1 => Toggle.mk 100 100 :: end_signal_loop n

/-- The fixed end-of-run signal the task performs after leaving the loop:
three 100 ms low/high toggles. -/
def end_signal : List Toggle := end_signal_loop 3

/-- Observable outcome of one pulse_task run over an observation window. -/
structure TaskResult where
  pulses : List Nat
  finalCount : Nat
  stopped : Bool
  endToggles : List Toggle
  droveIdleHigh : Bool
deriving DecidableEq

/-- pulse_task of the current build.  A null configuration makes the task
delete itself at once, before the line is driven or any counter touched.
Otherwise the task drives the line to idle high, resets the pulse counter to
0 and starts the loop with last_pulse_time = 0; when the loop exits it
writes STATE_STOPPED and performs the end-of-run signal. -/
def pulse_task (config : Option pulse_config_t) (inputs : List LoopInput) :
    TaskResult :=
  match config with
  | none =>
    { pulses := [], finalCount := 0, stopped := false, endToggles := [],
      droveIdleHigh := false }
  | some cfg =>
    { pulses := (runLoop cfg { last_pulse_time := 0, pulse_count := 0 } inputs).2.1,
      finalCount := (runLoop cfg { last_pulse_time := 0, pulse_count := 0 } inputs).1.pulse_count,
      stopped := (runLoop cfg { last_pulse_time := 0, pulse_count := 0 } inputs).2.2,
      endToggles :=
        if (runLoop cfg { last_pulse_time := 0, pulse_count := 0 } inputs).2.2 then end_signal
        else [],
      droveIdleHigh := true }

/-- handle_pause_system of the current build: toggles the global pause flag
and then writes STATE_PAUSED or STATE_RUNNING into every active
configuration, without inspecting the current state of any channel. -/
def handle_pause_system (pause_requested : Bool)
    (configs : List pulse_config_t) : Bool × List pulse_config_t :=
  let pr := !pause_requested
  (pr, configs.map fun c =>
    { c with state := if pr then generator_state_t.paused
                      else generator_state_t.running })

/-- The session controller starts one pulse_task per active channel; each
task receives only its own configuration pointer and reads its own shared
cells, so the runs are independent. -/
def run_channels (cfgs : List (Option pulse_config_t))
    (ins : List (List LoopInput)) : List TaskResult :=
  (cfgs.zip ins).map fun p => pulse_task p.1 p.2

/-- Concrete channel for the pause scenario: 1000 ms fixed interval, 100 ms
pulses, no pulse limit. -/
def cfgC1 : pulse_config_t :=
  { gpio := 4, interval_ms := 1000, pulse_duration_ms := 100,
    mode := pulse_mode_t.defined, label := "OUT1", max_pulses := 0,
    pps := 1, state := generator_state_t.stopped, pulse_count := 0 }

/-- Pause scenario: a pulse at t = 1000, a pause window in which the clock
advances about ten intervals, and a resume poll at t = 11600. -/
def insC1 : List LoopInput :=
  [⟨true, generator_state_t.running, 1000⟩,
   ⟨true, generator_state_t.paused, 1500⟩,
   ⟨true, generator_state_t.paused, 4000⟩,
   ⟨true, generator_state_t.paused, 8000⟩,
   ⟨true, generator_state_t.paused, 11500⟩,
   ⟨true, generator_state_t.running, 11600⟩]

/-- Concrete channel for the pulse-limit scenario: limit 3. -/
def cfgC4 : pulse_config_t :=
  { gpio := 4, interval_ms := 1000, pulse_duration_ms := 100,
    mode := pulse_mode_t.defined, label := "OUT1", max_pulses := 3,
    pps := 1, state := generator_state_t.stopped, pulse_count := 0 }

/-- Observation window for the pulse-limit scenario: three due polls and one
further poll at which the guard sees the reached limit. -/
def insC4 : List LoopInput :=
  [⟨true, generator_state_t.running, 1000⟩,
   ⟨true, generator_state_t.running, 2000⟩,
   ⟨true, generator_state_t.running, 3000⟩,
   ⟨true, generator_state_t.running, 3001⟩]

/-- Concrete channel the current build validator accepts although its pulse
duration exceeds its interval: the configuration configure_output produces
for a direct 2 ms interval entry, a 5000 ms pulse duration, random mode and
no limit. -/
def cfgC2 : pulse_config_t :=
  { gpio := 4, interval_ms := 2, pulse_duration_ms := 5000,
    mode := pulse_mode_t.random, label := "OUT1", max_pulses := 0,
    pps := 500, state := generator_state_t.stopped, pulse_count := 0 }

/-- Concrete channel that has already stopped: its task finished its three
pulses and wrote STATE_STOPPED. -/
def cfgC5 : pulse_config_t :=
  { gpio := 4, interval_ms := 1000, pulse_duration_ms := 100,
    mode := pulse_mode_t.defined, label := "OUT1", max_pulses := 3,
    pps := 1, state := generator_state_t.stopped, pulse_count := 3 }

/-- Concrete channel for the activation-timing scenario: 1000 ms fixed
interval, no limit. -/
def cfgC8 : pulse_config_t :=
  { gpio := 4, interval_ms := 1000, pulse_duration_ms := 100,
    mode := pulse_mode_t.defined, label := "OUT1", max_pulses := 0,
    pps := 1, state := generator_state_t.stopped, pulse_count := 0 }

/-- Characterization of the current build range validation. -/
theorem read_int_eq (v a b : Nat) :
    read_int_from_uart v a b = if a ≤ v ∧ v ≤ b then some v else none := by
  unfold read_int_from_uart
  split_ifs <;> first | rfl | omega

/-- Characterization of the earlier build range validation. -/
theorem read_int_eq_v1 (v a b : Nat) :
    V1.read_int_from_uart v a b = if a ≤ v ∧ v ≤ b then some v else none := by
  unfold V1.read_int_from_uart
  split_ifs <;> first | rfl | omega

/-- Closed form of the earlier build configuration routine. -/
theorem configure_single_output_eq (onum g i d : Nat) (m : Bool) :
    V1.configure_single_output onum g i d m =
      if V1.MIN_INTERVAL_MS ≤ i ∧ i ≤ V1.MAX_INTERVAL_MS then
        if V1.MIN_PULSE_MS ≤ d ∧ d ≤ V1.MAX_PULSE_MS then
          if i ≤ d then none
          else some { gpio := g, interval_ms := i, pulse_duration_ms := d,
                      mode := if m then pulse_mode_t.defined else pulse_mode_t.random,
                      label := if onum = 1 then "Saída 1" else "Saída 2" }
        else none
      else none := by
  unfold V1.configure_single_output
  rw [read_int_eq_v1, read_int_eq_v1]
  by_cases h1 : V1.MIN_INTERVAL_MS ≤ i ∧ i ≤ V1.MAX_INTERVAL_MS
  · by_cases h2 : V1.MIN_PULSE_MS ≤ d ∧ d ≤ V1.MAX_PULSE_MS
    · simp only [if_pos h1, if_pos h2]
    · simp only [if_pos h1, if_neg h2]
  · simp only [if_neg h1]

/-- C2 counterexample: in the current build the scheduler does not keep the
pulse duration below the effective interval. configure_output validates and
returns a random-mode configuration with a 2 ms interval and a 5000 ms
pulse duration (no cross-check exists), and the current build loop, which
ignores the mode and performs no random draw, uses interval_ms = 2 as the
due interval and fires a pulse with it, so an interval actually used by the
scheduler is not greater than the pulse duration. -/
theorem interval_invariant_counterexample :
    configure_output 1 4 false 2 5000 false false 0 = some cfgC2 ∧
    cfgC2.mode = pulse_mode_t.random ∧
    ¬(cfgC2.pulse_duration_ms < cfgC2.interval_ms) ∧
    (pulse_task (some cfgC2) [⟨true, generator_state_t.running, 2⟩]).pulses = [2] := by
  decide

/-- C2 amended: in the earlier build, for every configuration its
cross-checking validator accepts and every value the random source may
return, the interval policy strictly exceeds the pulse duration: in random
mode it lies in the closed range from pulse_duration + 1 to the base
interval, a draw of at most the pulse duration being clamped to
pulse_duration + 1, and in fixed mode it equals the base interval, so that
build keeps the pulse duration below every interval it uses.  The current
build loop instead ignores the mode entirely: its step is unchanged under
any mode rewrite and a pulse fires exactly when the sampled time is at
least interval_ms past last_pulse_time, so the only interval it ever uses
is interval_ms and the invariant holds there exactly for configurations
with pulse_duration_ms < interval_ms, which configure_output does not
enforce. -/
theorem interval_policy_invariant (onum g i d : Nat) (m : Bool)
    (cfg : V1.pulse_config_t) (r : Nat)
    (h : V1.configure_single_output onum g i d m = some cfg) :
    (cfg.pulse_duration_ms < V1.next_interval cfg r ∧
     cfg.pulse_duration_ms + 1 ≤ V1.next_interval cfg r ∧
     V1.next_interval cfg r ≤ cfg.interval_ms ∧
     (cfg.mode = pulse_mode_t.defined → V1.next_interval cfg r = cfg.interval_ms) ∧
     (cfg.mode = pulse_mode_t.random →
       r % cfg.interval_ms + 1 ≤ cfg.pulse_duration_ms →
       V1.next_interval cfg r = cfg.pulse_duration_ms + 1)) ∧
    (∀ (cfg2 : pulse_config_t) (mo : pulse_mode_t) (s : SchedState) (inp : LoopInput),
      loopIter { cfg2 with mode := mo } s inp = loopIter cfg2 s inp) ∧
    (∀ (cfg2 : pulse_config_t) (s : SchedState) (inp : LoopInput),
      ((loopIter cfg2 s inp).2 = true ↔
        (¬inp.phase = generator_state_t.paused ∧
          cfg2.interval_ms ≤ inp.now - s.last_pulse_time))) := by
  refine ⟨?_, ?_, ?_⟩
  case refine_2 =>
    intro cfg2 mo s inp
    rfl
  case refine_3 =>
    intro cfg2 s inp
    unfold loopIter
    split_ifs with h1 h2 <;> simp_all
  rw [configure_single_output_eq] at h
  by_cases hr1 : V1.MIN_INTERVAL_MS ≤ i ∧ i ≤ V1.MAX_INTERVAL_MS
  case neg => rw [if_neg hr1] at h; exact absurd h (by simp)
  by_cases hr2 : V1.MIN_PULSE_MS ≤ d ∧ d ≤ V1.MAX_PULSE_MS
  case neg => rw [if_pos hr1, if_neg hr2] at h; exact absurd h (by simp)
  by_cases hcross : i ≤ d
  case pos =>
    rw [if_pos hr1, if_pos hr2, if_pos hcross] at h
    exact absurd h (by simp)
  rw [if_pos hr1, if_pos hr2, if_neg hcross] at h
  rcases Option.some.inj h with rfl
  have hi1 : 200 ≤ i := hr1.1
  have hd1 : 100 ≤ d := hr2.1
  have h0 : 0 < i := by omega
  have hmod : r % i < i := Nat.mod_lt r h0
  have hdi : d < i := by omega
  cases m <;>
    refine ⟨?_, ?_, ?_, ?_, ?_⟩ <;>
      simp only [V1.next_interval] <;> simp <;>
        first
          | omega
          | (split_ifs <;> omega)

/-- Witness for interval_policy_invariant at a concrete accepted
configuration and random draw. -/
theorem interval_policy_invariant_witness :
    (100 : Nat) <
      V1.next_interval
        { gpio := 4, interval_ms := 1000, pulse_duration_ms := 100,
          mode := pulse_mode_t.random, label := "Saída 1" } 7 :=
  (interval_policy_invariant 1 4 1000 100 false
    { gpio := 4, interval_ms := 1000, pulse_duration_ms := 100,
      mode := pulse_mode_t.random, label := "Saída 1" } 7 (by decide)).1.1

/-- C3 counterexample: the current build validator configure_output accepts
a 2 ms interval with a 5000 ms pulse duration, so the statement that the
validator rejects every pair with pulse_duration >= interval fails on it. -/
theorem validator_no_cross_check_counterexample :
    (configure_output 1 4 false 2 5000 true false 0).map
        (fun c => (c.interval_ms, c.pulse_duration_ms)) = some (2, 5000) := by
  decide

/-- C3 amended: the earlier build validator configure_single_output
range-checks the interval, then the pulse duration, then cross-checks and
rejects pulse_duration >= interval, accepts pulse_duration = interval - 1,
short-circuits on the first failing check and returns either none or a fully
populated configuration whose fields are the accepted entries; the current
build validator configure_output range-checks both values but omits the
cross-check and accepts every in-range pair, including those with
pulse_duration >= interval. -/
theorem validation_cross_check (onum g i d : Nat) (m : Bool) :
    (i ≤ d → V1.configure_single_output onum g i d m = none) ∧
    (¬(V1.MIN_INTERVAL_MS ≤ i ∧ i ≤ V1.MAX_INTERVAL_MS) →
      V1.configure_single_output onum g i d m = none) ∧
    (∀ cfg, V1.configure_single_output onum g i d m = some cfg →
      V1.MIN_INTERVAL_MS ≤ i ∧ i ≤ V1.MAX_INTERVAL_MS ∧
      V1.MIN_PULSE_MS ≤ d ∧ d ≤ V1.MAX_PULSE_MS ∧ d < i ∧
      cfg.interval_ms = i ∧ cfg.pulse_duration_ms = d) ∧
    (V1.MIN_INTERVAL_MS ≤ i → i ≤ V1.MAX_INTERVAL_MS →
      V1.MIN_PULSE_MS ≤ i - 1 → i - 1 ≤ V1.MAX_PULSE_MS →
      (V1.configure_single_output onum g i (i - 1) m).isSome = true) ∧
    (MIN_INTERVAL_MS ≤ i → i ≤ MAX_INTERVAL_MS →
      MIN_PULSE_MS ≤ d → d ≤ MAX_PULSE_MS →
      (configure_output onum g false i d m false 0).isSome = true) := by
  refine ⟨?_, ?_, ?_, ?_, ?_⟩
  · intro hid
    rw [configure_single_output_eq]
    split_ifs <;> first | rfl | omega
  · intro hrange
    rw [configure_single_output_eq]
    split_ifs <;> first | rfl | omega
  · intro cfg h
    rw [configure_single_output_eq] at h
    by_cases hr1 : V1.MIN_INTERVAL_MS ≤ i ∧ i ≤ V1.MAX_INTERVAL_MS
    case neg => rw [if_neg hr1] at h; exact absurd h (by simp)
    by_cases hr2 : V1.MIN_PULSE_MS ≤ d ∧ d ≤ V1.MAX_PULSE_MS
    case neg => rw [if_pos hr1, if_neg hr2] at h; exact absurd h (by simp)
    by_cases hcross : i ≤ d
    case pos =>
      rw [if_pos hr1, if_pos hr2, if_pos hcross] at h
      exact absurd h (by simp)
    rw [if_pos hr1, if_pos hr2, if_neg hcross] at h
    rcases Option.some.inj h with rfl
    exact ⟨hr1.1, hr1.2, hr2.1, hr2.2, by omega, rfl, rfl⟩
  · intro ha hb hc hd
    have ha' : 200 ≤ i := ha
    rw [configure_single_output_eq]
    rw [if_pos ⟨ha, hb⟩, if_pos ⟨hc, hd⟩, if_neg (by omega)]
    rfl
  · intro ha hb hc hd
    have ha' : 1 ≤ i := ha
    have hiv : ask_pps_config false i = some i := by
      show read_int_from_uart i MIN_INTERVAL_MS MAX_INTERVAL_MS = some i
      rw [read_int_eq, if_pos ⟨ha, hb⟩]
    have hdur : read_int_from_uart d MIN_PULSE_MS MAX_PULSE_MS = some d := by
      rw [read_int_eq, if_pos ⟨hc, hd⟩]
    have hdiv : checkedDiv 1000 i = some (1000 / i) := by
      unfold checkedDiv
      exact if_neg (by omega)
    unfold configure_output
    simp only [hiv, hdur, hdiv]
    rfl

/-- Witness for validation_cross_check: a pair with the duration exceeding
the interval is rejected by the earlier build validator, a duration one
below the interval is accepted by it, and the current build validator
accepts a pair the cross-check would reject. -/
theorem validation_cross_check_witness :
    V1.configure_single_output 1 4 1000 1500 false = none ∧
    (V1.configure_single_output 1 4 1000 (1000 - 1) false).isSome = true ∧
    (configure_output 1 4 false 2 5000 false false 0).isSome = true :=
  ⟨(validation_cross_check 1 4 1000 1500 false).1 (by decide),
   (validation_cross_check 1 4 1000 0 false).2.2.2.1
     (by decide) (by decide) (by decide) (by decide),
   (validation_cross_check 1 4 2 5000 false).2.2.2.2
     (by decide) (by decide) (by decide) (by decide)⟩

/-- C6 counterexample: a direct interval entry of 1 ms is accepted, because
the range check uses MIN_INTERVAL_MS = 1000 / MAX_PPS = 1 and the defined
MIN_SAFE_INTERVAL_MS = 2 never enters any range check, refuting the claimed
lower bound of 2 ms. -/
theorem interval_entry_one_accepted :
    ask_pps_config false 1 = some 1 ∧ MIN_SAFE_INTERVAL_MS = 2 ∧
    MIN_INTERVAL_MS = 1 := by decide

/-- C6 amended: the numeric entry validations accept exactly these values
and reject all others: direct interval entry in [1, 3600000] ms (the lower
bound is MIN_INTERVAL_MS = 1, not 2), PPS in [1, 1000], pulse duration in
[1, 10000] ms, and pulse limit in [1, 1000000], with 0 for the no-limit
choice; a rejected limit entry surfaces as the -1 sentinel. -/
theorem input_bounds (n : Nat) :
    (ask_pps_config false n = some n ↔ MIN_INTERVAL_MS ≤ n ∧ n ≤ MAX_INTERVAL_MS) ∧
    (ask_pps_config false n = none ↔ ¬(MIN_INTERVAL_MS ≤ n ∧ n ≤ MAX_INTERVAL_MS)) ∧
    ((read_int_from_uart n MIN_PPS MAX_PPS).isSome = true ↔ 1 ≤ n ∧ n ≤ 1000) ∧
    ((read_int_from_uart n MIN_PULSE_MS MAX_PULSE_MS).isSome = true ↔
      1 ≤ n ∧ n ≤ 10000) ∧
    (ask_pulse_limit true n = (n : Int) ↔ 1 ≤ n ∧ n ≤ 1000000) ∧
    (ask_pulse_limit true n = -1 ↔ ¬(1 ≤ n ∧ n ≤ 1000000)) ∧
    ask_pulse_limit false n = 0 := by
  have hmin : MIN_INTERVAL_MS = 1 := by decide
  have hdirect : ask_pps_config false n =
      read_int_from_uart n MIN_INTERVAL_MS MAX_INTERVAL_MS := rfl
  have hlim : ask_pulse_limit true n =
      (match read_int_from_uart n 1 1000000 with
       | none => (-1 : Int)
       | some v => (v : Int)) := rfl
  refine ⟨?_, ?_, ?_, ?_, ?_, ?_, rfl⟩
  · rw [hdirect, read_int_eq]
    split_ifs with h
    · simp [h]
    · simp [h]
  · rw [hdirect, read_int_eq]
    split_ifs with h
    · simp [h]
    · simp [h]
  · rw [read_int_eq]
    split_ifs with h
    · simpa [MIN_PPS, MAX_PPS] using h
    · simp only [Option.isSome_none, MIN_PPS, MAX_PPS] at h ⊢
      simp [h]
  · rw [read_int_eq]
    split_ifs with h
    · simpa [MIN_PULSE_MS, MAX_PULSE_MS] using h
    · simp only [Option.isSome_none, MIN_PULSE_MS, MAX_PULSE_MS] at h ⊢
      simp [h]
  · rw [hlim, read_int_eq]
    split_ifs with h
    · show (n : Int) = (n : Int) ↔ 1 ≤ n ∧ n ≤ 1000000
      simp [h]
    · show (-1 : Int) = (n : Int) ↔ 1 ≤ n ∧ n ≤ 1000000
      constructor
      · intro hx
        exact absurd hx (by omega)
      · intro hx
        exact absurd hx h
  · rw [hlim, read_int_eq]
    split_ifs with h
    · simp [h]
    · show (-1 : Int) = -1 ↔ ¬(1 ≤ n ∧ n ≤ 1000000)
      simp [h]

/-- Witness for input_bounds at the concrete entry 0. -/
theorem input_bounds_witness : ask_pulse_limit false 0 = 0 :=
  (input_bounds 0).2.2.2.2.2.2

/-- C7: every PPS entry in [1, 1000] is converted to
interval_ms = 1000 / pps with truncating integer division (the result q is
exactly characterized by q * pps <= 1000 < (q + 1) * pps), concretely 500
PPS gives 2 ms and 3 PPS gives 333 ms, and both entry styles produce their
value through the same ask_pps_config result that configure_output stores
as the internal interval representation. -/
theorem pps_conversion (pps : Nat) (h1 : 1 ≤ pps) (h2 : pps ≤ 1000) :
    ask_pps_config true pps = some (1000 / pps) ∧
    (1000 / pps) * pps ≤ 1000 ∧
    1000 < ((1000 / pps) + 1) * pps ∧
    ask_pps_config true 500 = some 2 ∧
    ask_pps_config true 3 = some 333 ∧
    (∀ iv, ask_pps_config true pps = some iv → iv = 1000 / pps) ∧
    (∀ n iv, ask_pps_config false n = some iv → iv = n) := by
  have hr : read_int_from_uart pps MIN_PPS MAX_PPS = some pps := by
    unfold read_int_from_uart MIN_PPS MAX_PPS
    exact if_neg (by omega)
  have hd : checkedDiv 1000 pps = some (1000 / pps) := by
    unfold checkedDiv
    exact if_neg (by omega)
  have ha : ask_pps_config true pps = some (1000 / pps) := by
    unfold ask_pps_config
    simp only [hr, hd, if_true]
  refine ⟨ha, Nat.div_mul_le_self 1000 pps, ?_, by decide, by decide, ?_, ?_⟩
  · exact (Nat.div_lt_iff_lt_mul (by omega)).1 (Nat.lt_succ_self _)
  · intro iv hx
    rw [ha] at hx
    exact (Option.some.inj hx).symm
  · intro v iv hx
    have hx' : read_int_from_uart v MIN_INTERVAL_MS MAX_INTERVAL_MS = some iv := hx
    rw [read_int_eq] at hx'
    split_ifs at hx' with hc
    exact (Option.some.inj hx').symm

/-- Witness for pps_conversion at the concrete entry 500 PPS. -/
theorem pps_conversion_witness : ask_pps_config true 500 = some (1000 / 500) :=
  (pps_conversion 500 (by decide) (by decide)).1

/-- C10: under the validated-input precondition both divisions of the PPS
handling are safe: a PPS entry accepted by the range check is at least 1 and
the conversion division 1000 / pps succeeds, and every interval
ask_pps_config returns is at least 1 so the back-computation division
1000 / interval_ms in configure_output succeeds as well; the error branch of
the guarded division is unreachable from validated inputs. -/
theorem division_safety (u : Bool) (e : Nat) :
    (∀ pps, read_int_from_uart e MIN_PPS MAX_PPS = some pps →
      1 ≤ pps ∧ checkedDiv 1000 pps = some (1000 / pps)) ∧
    (∀ iv, ask_pps_config u e = some iv →
      1 ≤ iv ∧ checkedDiv 1000 iv = some (1000 / iv)) := by
  have hread : ∀ v a b x : Nat, read_int_from_uart v a b = some x →
      a ≤ x ∧ x ≤ b := by
    intro v a b x hx
    rw [read_int_eq] at hx
    split_ifs at hx with hc
    rcases Option.some.inj hx with rfl
    exact hc
  constructor
  · intro pps hp
    have hb := hread e MIN_PPS MAX_PPS pps hp
    have hb1 : 1 ≤ pps := hb.1
    refine ⟨hb1, ?_⟩
    unfold checkedDiv
    exact if_neg (by omega)
  · intro iv hiv
    cases u with
    | false =>
      have hb := hread e MIN_INTERVAL_MS MAX_INTERVAL_MS iv hiv
      have hb1 : 1 ≤ iv := hb.1
      refine ⟨hb1, ?_⟩
      unfold checkedDiv
      exact if_neg (by omega)
    | true =>
      unfold ask_pps_config at hiv
      rw [if_pos rfl] at hiv
      rcases hp : read_int_from_uart e MIN_PPS MAX_PPS with _ | pps
      · rw [hp] at hiv
        exact absurd (show (none : Option Nat) = some iv from hiv) (by simp)
      · rw [hp] at hiv
        have hb := hread e MIN_PPS MAX_PPS pps hp
        have hb1 : 1 ≤ pps := hb.1
        have hb2 : pps ≤ 1000 := hb.2
        have hdv : checkedDiv 1000 pps = some (1000 / pps) := by
          unfold checkedDiv
          exact if_neg (by omega)
        have hiv2 : (match checkedDiv 1000 pps with
            | none => none
            | some interval_ms => some interval_ms) = some iv := hiv
        rw [hdv] at hiv2
        have hiv3 : some (1000 / pps) = some iv := hiv2
        rcases Option.some.inj hiv3 with rfl
        have hge : 1 ≤ 1000 / pps := by
          rw [Nat.one_le_div_iff (by omega)]
          exact hb2
        refine ⟨hge, ?_⟩
        unfold checkedDiv
        exact if_neg (by omega)

/-- Witness for division_safety at the concrete PPS entry 500. -/
theorem division_safety_witness :
    1 ≤ 2 ∧ checkedDiv 1000 2 = some (1000 / 2) :=
  (division_safety true 500).2 2 (by decide)

/-- The loop body changes the counter exactly when a pulse fires. -/
theorem loopIter_count (cfg : pulse_config_t) (s : SchedState) (inp : LoopInput) :
    (loopIter cfg s inp).1.pulse_count =
      s.pulse_count + (if (loopIter cfg s inp).2 then 1 else 0) := by
  unfold loopIter
  split_ifs <;> simp_all

/-- Counter invariant of the loop: with system_running true throughout and a
positive limit, the counter never exceeds the limit, the number of emitted
pulses equals the counter increase, and loop exit happens exactly at the
limit. -/
theorem runLoop_count_aux (cfg : pulse_config_t) (h0 : 0 < cfg.max_pulses)
    (inputs : List LoopInput) :
    ∀ s : SchedState, (∀ i ∈ inputs, i.sys = true) →
      (s.pulse_count : Int) ≤ cfg.max_pulses →
      ((runLoop cfg s inputs).1.pulse_count : Int) ≤ cfg.max_pulses ∧
      (runLoop cfg s inputs).2.1.length + s.pulse_count =
        (runLoop cfg s inputs).1.pulse_count ∧
      ((runLoop cfg s inputs).2.2 = true →
        ((runLoop cfg s inputs).1.pulse_count : Int) = cfg.max_pulses) := by
  induction inputs with
  | nil =>
    intro s _ hle
    refine ⟨hle, by simp [runLoop], ?_⟩
    intro hx
    simp [runLoop] at hx
  | cons inp rest ih =>
    intro s hsys hle
    by_cases hg : inp.sys = true ∧
        (cfg.max_pulses = 0 ∨ (s.pulse_count : Int) < cfg.max_pulses)
    · have hlt : (s.pulse_count : Int) < cfg.max_pulses := by
        rcases hg.2 with hz | hz
        · omega
        · exact hz
      have hstep := loopIter_count cfg s inp
      have hle1 : ((loopIter cfg s inp).1.pulse_count : Int) ≤ cfg.max_pulses := by
        rw [hstep]
        split_ifs <;> push_cast <;> omega
      have hrest := ih (loopIter cfg s inp).1
        (fun i hi => hsys i (List.mem_cons_of_mem _ hi)) hle1
      simp only [runLoop, if_pos hg]
      refine ⟨hrest.1, ?_, hrest.2.2⟩
      cases hfired : (loopIter cfg s inp).2 with
      | false =>
        have hstep' : (loopIter cfg s inp).1.pulse_count = s.pulse_count := by
          rw [hstep, hfired]
          simp
        have hlen := hrest.2.1
        rw [hstep'] at hlen
        simpa [hfired] using hlen
      | true =>
        have hstep' : (loopIter cfg s inp).1.pulse_count = s.pulse_count + 1 := by
          rw [hstep, hfired]
          simp
        have hlen := hrest.2.1
        rw [hstep'] at hlen
        simp
        omega
    · simp only [runLoop, if_neg hg]
      have hsT : inp.sys = true := hsys inp (List.mem_cons_self _ _)
      refine ⟨hle, by simp, ?_⟩
      intro _
      have hnot : ¬(cfg.max_pulses = 0 ∨ (s.pulse_count : Int) < cfg.max_pulses) :=
        fun hc => hg ⟨hsT, hc⟩
      push_neg at hnot
      omega

/-- C4: with a positive pulse limit and system_running high throughout, the
scheduler never emits more than max_pulses pulses, the emitted pulses are
exactly the counted ones, and whenever the loop exits the counter equals the
limit, the channel is flagged stopped and the fixed end-of-run signal of
three 100 ms low/high toggles runs without touching the pulse counter;
concretely a limit of 3 yields exactly the three pulses at 1000, 2000 and
3000 ms followed by the three toggles. -/
theorem max_pulses_exact (cfg : pulse_config_t) (inputs : List LoopInput)
    (hmax : 0 < cfg.max_pulses) (hsys : ∀ i ∈ inputs, i.sys = true) :
    (((pulse_task (some cfg) inputs).finalCount : Int) ≤ cfg.max_pulses ∧
     (pulse_task (some cfg) inputs).pulses.length =
       (pulse_task (some cfg) inputs).finalCount ∧
     ((pulse_task (some cfg) inputs).stopped = true →
       ((pulse_task (some cfg) inputs).finalCount : Int) = cfg.max_pulses ∧
       (pulse_task (some cfg) inputs).endToggles = end_signal)) ∧
    end_signal = [Toggle.mk 100 100, Toggle.mk 100 100, Toggle.mk 100 100] ∧
    pulse_task (some cfgC4) insC4 =
      { pulses := [1000, 2000, 3000], finalCount := 3, stopped := true,
        endToggles := end_signal, droveIdleHigh := true } := by
  have haux := runLoop_count_aux cfg hmax inputs ⟨0, 0⟩ hsys (by push_cast; omega)
  refine ⟨⟨haux.1, ?_, ?_⟩, by decide, by decide⟩
  · exact haux.2.1
  · intro hst
    have hst2 : (runLoop cfg ⟨0, 0⟩ inputs).2.2 = true := hst
    refine ⟨haux.2.2 hst2, ?_⟩
    show (if (runLoop cfg ⟨0, 0⟩ inputs).2.2 then end_signal else []) = end_signal
    rw [hst2]
    rfl

/-- Witness for max_pulses_exact at the concrete limit-3 run. -/
theorem max_pulses_exact_witness :
    pulse_task (some cfgC4) insC4 =
      { pulses := [1000, 2000, 3000], finalCount := 3, stopped := true,
        endToggles := end_signal, droveIdleHigh := true } :=
  (max_pulses_exact cfgC4 insC4 (by decide) (by decide)).2.2

/-- C1 counterexample: after the pulse at t = 1000 the pending due time is
2000; the clock then advances about ten intervals inside the Paused window,
during which no pulse fires, and on the resume poll at t = 11600 the code
fires immediately at 11600, because last_pulse_time is never shifted by the
pause duration; a stalled due clock would make the post-pause pulse fire no
earlier than 12000, so the produced pulse list refutes the claim. -/
theorem pause_stall_counterexample :
    (pulse_task (some cfgC1) insC1).pulses = [1000, 11600] ∧
    (pulse_task (some cfgC1) insC1).pulses ≠ [1000, 12000] := by decide

/-- C1 amended: while the channel is Paused no pulse is emitted and the
loop state is unchanged, but the due clock does not stall: wall-clock time
elapsed during the pause counts toward the interval, and on the first
non-paused poll whose sampled time is at least one interval past
last_pulse_time the pulse fires at that poll time, regardless of how long
the pause lasted. -/
theorem pause_no_stall (cfg : pulse_config_t) (s : SchedState)
    (pin : List LoopInput) (res : LoopInput)
    (hp : ∀ i ∈ pin, i.phase = generator_state_t.paused ∧ i.sys = true)
    (hg : cfg.max_pulses = 0 ∨ (s.pulse_count : Int) < cfg.max_pulses)
    (hrs : res.sys = true) (hrp : res.phase ≠ generator_state_t.paused)
    (hdue : cfg.interval_ms ≤ res.now - s.last_pulse_time) :
    runLoop cfg s (pin ++ [res]) =
      ({ last_pulse_time := res.now, pulse_count := s.pulse_count + 1 },
       [res.now], false) := by
  induction pin with
  | nil =>
    have hiter : loopIter cfg s res =
        ({ last_pulse_time := res.now, pulse_count := s.pulse_count + 1 }, true) := by
      unfold loopIter
      rw [if_neg hrp, if_pos hdue]
    simp only [List.nil_append, runLoop, if_pos (And.intro hrs hg), hiter]
    simp [runLoop]
  | cons p ps ih =>
    have hph := hp p (List.mem_cons_self _ _)
    have hiter : loopIter cfg s p = (s, false) := by
      unfold loopIter
      rw [if_pos hph.1]
    have ih2 := ih (fun i hi => hp i (List.mem_cons_of_mem _ hi))
    simp only [List.cons_append, runLoop, if_pos (And.intro hph.2 hg), hiter]
    simp [ih2]

/-- Witness for pause_no_stall: after a pulse at 1000, two paused polls and
a resume poll at 11600 produce exactly one pulse, fired at 11600. -/
theorem pause_no_stall_witness :
    runLoop cfgC1 { last_pulse_time := 1000, pulse_count := 1 }
        ([⟨true, generator_state_t.paused, 2000⟩,
          ⟨true, generator_state_t.paused, 7000⟩] ++
          [⟨true, generator_state_t.running, 11600⟩]) =
      ({ last_pulse_time := 11600, pulse_count := 2 }, [11600], false) :=
  pause_no_stall cfgC1 { last_pulse_time := 1000, pulse_count := 1 }
    [⟨true, generator_state_t.paused, 2000⟩, ⟨true, generator_state_t.paused, 7000⟩]
    ⟨true, generator_state_t.running, 11600⟩
    (by decide) (by decide) (by decide) (by decide) (by decide)

/-- C5: evaluation at the failing input: a channel whose phase is already
stopped has its phase overwritten to paused by a pause broadcast, and to
running by the following resume broadcast, so the stopped phase is not
terminal under the session-wide pause and resume operations. -/
theorem stopped_phase_overwritten :
    cfgC5.state = generator_state_t.stopped ∧
    ((handle_pause_system false [cfgC5]).2.map fun c => c.state) =
      [generator_state_t.paused] ∧
    ((handle_pause_system true [cfgC5]).2.map fun c => c.state) =
      [generator_state_t.running] := by decide

/-- C8 counterexample: a channel activated when the tick clock already
reads 5000 ms fires its first pulse at the very first poll, at 5000 ms,
which is strictly earlier than one interval after activation (6000 ms),
because last_pulse_time starts at 0 rather than at the activation time. -/
theorem activation_counterexample :
    (pulse_task (some cfgC8) [⟨true, generator_state_t.running, 5000⟩]).pulses =
      [5000] ∧
    5000 < 5000 + cfgC8.interval_ms := by decide

/-- C8 amended: on activation pulse_task resets the pulse counter to 0 and
drives the line to idle high, but the timing reference last_pulse_time is
initialised to 0 (boot) rather than to the activation time: with no polls
the result is empty with counter 0 and the line high, and at the first
running poll whose absolute tick time t satisfies interval_ms <= t a pulse
fires at t, regardless of when the task was activated. -/
theorem activation_behavior (cfg : pulse_config_t) (t : Nat)
    (hm : 0 ≤ cfg.max_pulses) (ht : cfg.interval_ms ≤ t) :
    pulse_task (some cfg) [] =
      { pulses := [], finalCount := 0, stopped := false, endToggles := [],
        droveIdleHigh := true } ∧
    (pulse_task (some cfg) [⟨true, generator_state_t.running, t⟩]).pulses = [t] := by
  constructor
  · rfl
  · show (runLoop cfg ⟨0, 0⟩ [⟨true, generator_state_t.running, t⟩]).2.1 = [t]
    have hg : (⟨true, generator_state_t.running, t⟩ : LoopInput).sys = true ∧
        (cfg.max_pulses = 0 ∨
          (((⟨0, 0⟩ : SchedState).pulse_count : Nat) : Int) < cfg.max_pulses) := by
      refine ⟨rfl, ?_⟩
      show cfg.max_pulses = 0 ∨ ((0 : Nat) : Int) < cfg.max_pulses
      push_cast
      omega
    have hiter : loopIter cfg ⟨0, 0⟩ ⟨true, generator_state_t.running, t⟩ =
        ({ last_pulse_time := t, pulse_count := 1 }, true) := by
      unfold loopIter
      have h1 : ¬((⟨true, generator_state_t.running, t⟩ : LoopInput).phase =
          generator_state_t.paused) := by simp
      rw [if_neg h1]
      have h2 : cfg.interval_ms ≤
          (⟨true, generator_state_t.running, t⟩ : LoopInput).now -
            (⟨0, 0⟩ : SchedState).last_pulse_time := by simpa using ht
      rw [if_pos h2]
    simp only [runLoop, if_pos hg, hiter]
    simp [runLoop]
    rw [if_pos (show cfg.max_pulses = 0 ∨ 0 < cfg.max_pulses by omega)]

/-- Witness for activation_behavior at a concrete channel first polled at
tick time 5000. -/
theorem activation_behavior_witness :
    pulse_task (some cfgC8) [] =
      { pulses := [], finalCount := 0, stopped := false, endToggles := [],
        droveIdleHigh := true } ∧
    (pulse_task (some cfgC8)
        [⟨true, generator_state_t.running, 5000⟩]).pulses = [5000] :=
  activation_behavior cfgC8 5000 (by decide) (by decide)

/-- C9: a null configuration makes the task return at once: over every
observation window it emits no pulse, performs no end-of-run toggle, never
drives the line and leaves the counter at 0; and in a two-channel session
the sibling channel result is exactly what it is in isolation, so the
failure is confined to the affected task. -/
theorem null_config_isolated (inputs : List LoopInput) (c2 : pulse_config_t)
    (in2 : List LoopInput) :
    pulse_task none inputs =
      { pulses := [], finalCount := 0, stopped := false, endToggles := [],
        droveIdleHigh := false } ∧
    run_channels [none, some c2] [inputs, in2] =
      [{ pulses := [], finalCount := 0, stopped := false, endToggles := [],
         droveIdleHigh := false }, pulse_task (some c2) in2] :=
  ⟨rfl, rfl⟩

/-- Witness for null_config_isolated at an empty observation window and a
concrete sibling configuration. -/
theorem null_config_isolated_witness :
    pulse_task none [] =
      { pulses := [], finalCount := 0, stopped := false, endToggles := [],
        droveIdleHigh := false } :=
  (null_config_isolated []
    { gpio := 5, interval_ms := 1000, pulse_duration_ms := 100,
      mode := pulse_mode_t.defined, label := "OUT2", max_pulses := 0,
      pps := 1, state := generator_state_t.stopped, pulse_count := 0 } []).1

end PulseGen
